import Mathlib

/-!
Shallow embedding of the temporal scalar-function subsystem of the repository
(`src/query/functions/src/scalars/datetime.rs`) together with the HTTP session
refresh handler (`src/query/service/src/servers/http/v1/session/refresh_handler.rs`).

Machine integers (`i64`, `i32`) are embedded as `Int`; where 64-bit overflow is
semantically relevant the wrapping behaviour of release-mode Rust arithmetic is
made explicit via `wrap64`, and the `checked_*` operations return `Option`.
External oracles (the `chrono`/`chrono-tz`/`dtparse` libraries) are abstracted
as explicit data fed to the embedded control flow, which is translated
branch-for-branch from the source.
-/

namespace Databend

/-- `MICROS_PER_SEC` from `databend_common_expression::types::timestamp`. -/
def MICROS_PER_SEC : Int := 1000000

/-- `MICROS_PER_MILLI` from `databend_common_expression::types::timestamp`. -/
def MICROS_PER_MILLI : Int := 1000

/-- Modelled from the spec: the minimum representable Timestamp (`TIMESTAMP_MIN`,
declared in `databend_common_expression::types::timestamp`, not under `src/`):
microseconds since the epoch for the lower clamp boundary. The spec fixes only
that Timestamps are clamped to `[TIMESTAMP_MIN, TIMESTAMP_MAX]`; the concrete
endpoint value is taken as a fixed constant. -/
def TIMESTAMP_MIN : Int := -30610224000000000

/-- Modelled from the spec: the maximum representable Timestamp (`TIMESTAMP_MAX`,
declared in `databend_common_expression::types::timestamp`, not under `src/`). -/
def TIMESTAMP_MAX : Int := 253402207199999999

/-- Modelled from the spec: the minimum representable Date in days
(`DATE_MIN`, declared in `databend_common_expression::types::date`, not under `src/`). -/
def DATE_MIN : Int := -354285

/-- Modelled from the spec: the maximum representable Date in days
(`DATE_MAX`, declared in `databend_common_expression::types::date`, not under `src/`). -/
def DATE_MAX : Int := 2932896

/-- Smallest `i64` value. -/
def I64_MIN : Int := -9223372036854775808

/-- Largest `i64` value. -/
def I64_MAX : Int := 9223372036854775807

/-- Release-mode Rust `i64` wrapping: reduce a mathematical integer to the
two's-complement 64-bit representative in `[I64_MIN, I64_MAX]`. -/
def wrap64 (n : Int) : Int := (n + 9223372036854775808) % 18446744073709551616 - 9223372036854775808

/-- Rust `i64::checked_mul`: `some` of the product when it fits in 64 bits. -/
def checked_mul (a b : Int) : Option Int :=
  if I64_MIN ≤ a * b ∧ a * b ≤ I64_MAX then some (a * b) else none

/-- Rust `i64::checked_add`: `some` of the sum when it fits in 64 bits. -/
def checked_add (a b : Int) : Option Int :=
  if I64_MIN ≤ a + b ∧ a + b ≤ I64_MAX then some (a + b) else none

/-- Modelled from the spec: `clamp_timestamp` (in
`databend_common_expression::types::timestamp`, not under `src/`): the
saturating clamp of a microsecond count to `[TIMESTAMP_MIN, TIMESTAMP_MAX]`
(spec: "on overflow, pin the result to the nearest representable boundary"). -/
def clamp_timestamp (n : Int) : Int :=
  if n < TIMESTAMP_MIN then TIMESTAMP_MIN
  else if n > TIMESTAMP_MAX then TIMESTAMP_MAX
  else n

/-- Modelled from the spec: `clamp_date` (in
`databend_common_expression::types::date`, not under `src/`): the saturating
clamp of a day count to `[DATE_MIN, DATE_MAX]`. -/
def clamp_date (n : Int) : Int :=
  if n < DATE_MIN then DATE_MIN
  else if n > DATE_MAX then DATE_MAX
  else n

/-- `SimpleDomain<i64>`: the inclusive `[min, max]` bound on a column's values. -/
structure SimpleDomain where
  min : Int
  max : Int
  deriving DecidableEq, Repr

/-- `FunctionDomain`: the output classification of a domain-inference rule
(`Full` = unrestricted, `MayThrow` = no sound bound / may fail,
`Domain d` = bounded by `d`). -/
inductive FunctionDomain where
  | Full
  | MayThrow
  | Domain (d : SimpleDomain)
  deriving DecidableEq, Repr

/-- `int64_to_timestamp` (datetime.rs lines 119-129): interpret an Int64 as a
timestamp via the magnitude heuristic — seconds if `|n|` is below one thousand
years in seconds, milliseconds if below one thousand years in milliseconds,
otherwise treat as microseconds and clamp. -/
def int64_to_timestamp (n : Int) : Int :=
  if -31536000000 < n ∧ n < 31536000000 then n * MICROS_PER_SEC
  else if -31536000000000 < n ∧ n < 31536000000000 then n * MICROS_PER_MILLI
  else clamp_timestamp n

/-- `int64_domain_to_timestamp_domain` (datetime.rs lines 131-138): map an input
Int64 domain to the declared output timestamp domain endpoint-wise. -/
def int64_domain_to_timestamp_domain (d : SimpleDomain) : Option SimpleDomain :=
  some ⟨int64_to_timestamp d.min, int64_to_timestamp d.max⟩

/-- The domain rule registered for `to_timestamp` on an Int64 argument
(datetime.rs lines 541-548). -/
def to_timestamp_int64_domain (d : SimpleDomain) : FunctionDomain :=
  match int64_domain_to_timestamp_domain d with
  | some d2 => .Domain d2
  | none => .MayThrow

/-- The per-row evaluator registered for `to_timestamp` on an Int64 argument
(datetime.rs lines 566-574). -/
def eval_number_to_timestamp_row (val : Int) : Int := int64_to_timestamp val

/-- `FACTOR_SECOND` from `date_helper` (not under `src/`): one second per second. -/
def FACTOR_SECOND : Int := 1

/-- `FACTOR_MINUTE` from `date_helper` (not under `src/`): seconds per minute. -/
def FACTOR_MINUTE : Int := 60

/-- `FACTOR_HOUR` from `date_helper` (not under `src/`): seconds per hour. -/
def FACTOR_HOUR : Int := 3600

/-- Modelled from the spec: `EvalTimesImpl::eval_timestamp` (in
`databend_common_expression::utils::date_helper`, not under `src/`). Spec 4.3:
for fixed-length units, "direct scaled addition in micros ... with saturating
clamp to range". -/
def EvalTimesImpl.eval_timestamp (ts delta factor : Int) : Int :=
  clamp_timestamp (ts + delta * factor * MICROS_PER_SEC)

/-- The per-row evaluator of `add_seconds` on a Timestamp
(datetime.rs lines 1051-1064): `EvalTimesImpl::eval_timestamp` at `FACTOR_SECOND`. -/
def add_seconds_eval (ts delta : Int) : Int :=
  EvalTimesImpl.eval_timestamp ts delta FACTOR_SECOND

/-- The per-row evaluator of the timestamp `plus` operator
(datetime.rs lines 1676-1683): 64-bit addition followed by `clamp_timestamp`. -/
def plus_timestamp_eval (a b : Int) : Int := clamp_timestamp (wrap64 (a + b))

/-- The per-row evaluator of the timestamp `minus` operator
(datetime.rs lines 1722-1728): 64-bit subtraction followed by `clamp_timestamp`. -/
def minus_timestamp_eval (a b : Int) : Int := clamp_timestamp (wrap64 (a - b))

/-- The domain rule of the timestamp `plus` operator (datetime.rs lines
1662-1675): clamp the endpoint sums; always returns a bounded domain. -/
def plus_timestamp_domain (lhs rhs : SimpleDomain) : FunctionDomain :=
  .Domain ⟨clamp_timestamp (wrap64 (lhs.min + rhs.min)),
           clamp_timestamp (wrap64 (lhs.max + rhs.max))⟩

/-- The domain rule of the timestamp `minus` operator (datetime.rs lines
1708-1721): `min = lhs.min - rhs.min` and `max = lhs.max - rhs.max` (the
subtrahend's endpoints are NOT swapped), clamped; always a bounded domain. -/
def minus_timestamp_domain (lhs rhs : SimpleDomain) : FunctionDomain :=
  .Domain ⟨clamp_timestamp (wrap64 (lhs.min - rhs.min)),
           clamp_timestamp (wrap64 (lhs.max - rhs.max))⟩

/-- The domain rule registered by `impl_register_arith_functions` for every
fixed-length-unit add/subtract function on Timestamp — `add_days`,
`add_weeks`, `add_hours`, `add_minutes`, `add_seconds` and the `subtract_*`
counterparts (datetime.rs lines 944-953, 964-974, 991-1004, 1021-1034,
1051-1064): the generated closure is `|_, _, _| FunctionDomain::MayThrow`. -/
def add_fixed_unit_timestamp_domain (_lhs _rhs : SimpleDomain) : FunctionDomain :=
  .MayThrow

/-- Modelled from the spec: `EvalDaysImpl::eval_date_diff` (in
`databend_common_expression::utils::date_helper`, not under `src/`). Spec 4.3:
`Diff(unit, start, end)` is the "integer count of whole units between two
instants"; for whole days on Dates that is `date_end - date_start`. -/
def EvalDaysImpl.eval_date_diff (date_start date_end : Int) : Int :=
  date_end - date_start

/-- The per-row evaluator of `diff_days` on Dates (datetime.rs lines
1167-1176): the first SQL argument is bound as `date_end`, the second as
`date_start`. -/
def diff_days_date_eval (date_end date_start : Int) : Int :=
  EvalDaysImpl.eval_date_diff date_start date_end

/-- `chrono::MappedLocalTime`: the tri-state result of resolving a naive local
time in a timezone. For `Ambiguous`, chrono's contract is that the first
component is the earlier of the two candidate instants. Instants are carried
as their `timestamp_micros()` values. -/
inductive MappedLocalTime where
  | Single (t : Int)
  | Ambiguous (t1 t2 : Int)
  | NoneM
  deriving DecidableEq, Repr

/-- Oracle data for one row of the lenient (`dtparse`) branch of
`eval_string_to_timestamp` (datetime.rs lines 235-310), abstracting the
external `dtparse`/`chrono` calls:
* `parseErr msg` — `parse(val)` failed with message `msg`;
* `withTz resolve plusHour msg` — `parse` returned `(naive_dt, Some(parse_tz))`;
  `resolve` is `naive_dt.and_local_timezone(parse_tz)` with each candidate
  already converted to session-timezone micros, `plusHour` is `none` when
  `naive_dt.checked_add_signed(3600s)` overflows and otherwise
  `some` of `tz.from_local_datetime(naive_dt + 1h)`, and `msg` is the
  formatted naive-time/timezone text interpolated into error messages;
* `noTz res` — `parse` returned `(naive_dt, None)` and `res` is the result of
  `unwrap_local_time(&tz, enable_dst_hour_fix, &naive_dt)` in micros. -/
inductive RowParse where
  | parseErr (msg : String)
  | withTz (resolve : MappedLocalTime) (plusHour : Option MappedLocalTime) (msg : String)
  | noTz (res : Except String Int)
  deriving Repr

/-- One row of `eval_string_to_timestamp` (datetime.rs lines 216-313),
translated branch-for-branch. `strictRes` abstracts the external
`string_to_timestamp` call used when `enable_strict_datetime_parser` is set.
Returns the list of values pushed to the output builder for this row (the
source pushes via `output.push`) and the list of `(row index, message)` errors
recorded via `ctx.set_error`. -/
def evalStringToTimestampRow (strict dstFix : Bool)
    (strictRes : Except String Int) (lenient : RowParse) (row : Nat) :
    List Int × List (Nat × String) :=
  if strict then
    match strictRes with
    | .ok ts => ([ts], [])
    | .error e => ([0], [(row, "cannot parse to type TIMESTAMP. " ++ e)])
  else
    match lenient with
    | .parseErr msg => ([0], [(row, "cannot parse to type TIMESTAMP. " ++ msg)])
    | .withTz resolve plusHour msg =>
      match resolve with
      | .Single res => ([res], [])
      | .NoneM =>
        if dstFix then
          match plusHour with
          | some (.Single t) => ([t], [])
          | some (.Ambiguous t1 _) => ([t1], [])
          | some .NoneM =>
            ([0], [(row, "cannot parse to type TIMESTAMP. Local Time Error: " ++ msg)])
          | none => ([], [])
        else ([0], [(row, "cannot parse to type TIMESTAMP. " ++ msg)])
      | .Ambiguous t1 t2 => if dstFix then ([t1], []) else ([t2], [])
    | .noTz res =>
      match res with
      | .ok t => ([t], [])
      | .error e => ([0], [(row, "cannot parse to type TIMESTAMP. " ++ e)])

/-- The batch loop of `eval_string_to_timestamp` as produced by
`vectorize_with_builder_1_arg`: every input row is visited in index order
regardless of earlier errors; `ctx.set_error` records the current builder
length (`output.len()`) as the row index, so the index counter advances by the
number of values the row actually pushed. -/
def evalStringToTimestampBatch (strict dstFix : Bool)
    (rows : List (Except String Int × RowParse)) (idx : Nat) :
    List Int × List (Nat × String) :=
  match rows with
  | [] => ([], [])
  | r :: rest =>
    let head := evalStringToTimestampRow strict dstFix r.1 r.2 idx
    let tail := evalStringToTimestampBatch strict dstFix rest (idx + head.1.length)
    (head.1 ++ tail.1, head.2 ++ tail.2)

/-- Oracle data for one row of `convert_timezone` (datetime.rs lines 140-191),
abstracting the external `chrono`/`chrono-tz` calls:
* `valid` — the row's input validity bit (`true` when no bitmap is present);
* `srcTs` — the source timestamp in micros; `p_src_timestamp.with_timezone`
  preserves the instant, so `result_timestamp` equals `srcTs`;
* `srcOffset` — `src_dst_from_utc`, the source zone's fixed UTC offset at the
  instant, in seconds;
* `targetTz` — `some` of the target zone's fixed UTC offset at the instant in
  seconds when `target_tz.parse()` succeeds, `none` when it fails;
* `errTxt` — the parse-failure text interpolated into the error message. -/
structure ConvertTzRow where
  valid : Bool
  srcTs : Int
  srcOffset : Int
  targetTz : Option Int
  errTxt : String
  deriving DecidableEq, Repr

/-- One row of the `convert_timezone` evaluator (datetime.rs lines 145-188),
translated branch-for-branch; output conventions as in
`evalStringToTimestampRow`. -/
def convert_timezone_row (r : ConvertTzRow) (row : Nat) :
    List Int × List (Nat × String) :=
  match r.valid with
  | false => ([0], [])
  | true =>
    match r.targetTz with
    | none => ([0], [(row, "cannot parse target timezone. " ++ r.errTxt)])
    | some tgtOff =>
      match checked_mul (tgtOff - r.srcOffset) MICROS_PER_SEC with
      | some offset =>
        match checked_add r.srcTs offset with
        | some res => ([res], [])
        | none => ([0], [(row, "calc final time error")])
      | none => ([0], [(row, "calc time offset error")])

/-- `string_to_format_timestamp` (datetime.rs lines 402-485). The empty-format
check precedes all parsing; the whole non-empty pipeline (timezone-directive
detection, `parse_and_remainder`, `chrono` parsing, local-time resolution) is
abstracted as the oracle `rest`, applied to the input string and format.
Returns `(micros, need_null)` on success. -/
def string_to_format_timestamp (timestamp fmt : String)
    (rest : String → String → Except String (Int × Bool)) :
    Except String (Int × Bool) :=
  if fmt = "" then .ok (0, true) else rest timestamp fmt

/-- A slot of a nullable output column: either NULL or a value. -/
inductive NullableOut where
  | nullv
  | val (t : Int)
  deriving DecidableEq, Repr

/-- One row of the two-argument `to_timestamp(string, format)` evaluator
(datetime.rs lines 315-335). -/
def to_timestamp_fmt_row (timestamp fmt : String)
    (rest : String → String → Except String (Int × Bool)) (row : Nat) :
    List NullableOut × List (Nat × String) :=
  match string_to_format_timestamp timestamp fmt rest with
  | .ok (ts, needNull) => if needNull then ([.nullv], []) else ([.val ts], [])
  | .error e => ([.nullv], [(row, e)])

/-- One row of the two-argument `try_to_timestamp(string, format)` evaluator
(datetime.rs lines 337-356): identical except that errors become NULL without
being recorded. -/
def try_to_timestamp_fmt_row (timestamp fmt : String)
    (rest : String → String → Except String (Int × Bool)) (_row : Nat) :
    List NullableOut × List (Nat × String) :=
  match string_to_format_timestamp timestamp fmt rest with
  | .ok (ts, needNull) => if needNull then ([.nullv], []) else ([.val ts], [])
  | .error _ => ([.nullv], [])

/-- The request credential (`crate::auth::Credential`, declared outside
`src/`); `refresh_handler` only distinguishes the `DatabendToken` variant from
all others, so the remaining variants are collapsed into `Other`. -/
inductive Credential where
  | DatabendToken (token : String)
  | Other
  deriving DecidableEq, Repr

/-- The `TokenPair` produced by `ClientSessionManager::new_token_pair`
(declared outside `src/`): the fields `refresh_handler` reads. -/
structure TokenPair where
  session : String
  refresh : String
  deriving DecidableEq, Repr

/-- `RefreshResponse` (refresh_handler.rs lines 33-38). -/
structure RefreshResponse where
  session_token : Option String
  refresh_token : Option String
  session_token_ttl_in_secs : Nat
  deriving DecidableEq, Repr

/-- Modelled from the spec: `SESSION_TOKEN_TTL` (in
`servers::http::v1::session::consts`, not under `src/`), as a whole number of
seconds; the concrete value is taken as a fixed constant. -/
def SESSION_TOKEN_TTL_SECS : Nat := 3600

/-- The observable outcome of one `refresh_handler` call: a panic (the
`unreachable!` macro), an error response (`new_token_pair` failed and was
mapped to a server error), or a successful JSON `RefreshResponse`. -/
inductive HandlerOutcome where
  | panicked (msg : String)
  | errorResp (msg : String)
  | ok (resp : RefreshResponse)
  deriving DecidableEq, Repr

/-- `refresh_handler` (refresh_handler.rs lines 40-63), with the external
`ClientSessionManager::new_token_pair` call abstracted as the oracle
`new_token_pair` applied to the credential's refresh token. -/
def refresh_handler (cred : Credential)
    (new_token_pair : String → Except String TokenPair) : HandlerOutcome :=
  match cred with
  | .DatabendToken token =>
    match new_token_pair token with
    | .ok pair => .ok ⟨some pair.session, some pair.refresh, SESSION_TOKEN_TTL_SECS⟩
    | .error e => .errorResp e
  | .Other => .panicked "/v1/session/refresh should be authed by databend refresh token"

theorem clamp_timestamp_mem (n : Int) :
    TIMESTAMP_MIN ≤ clamp_timestamp n ∧ clamp_timestamp n ≤ TIMESTAMP_MAX := by
  simp only [clamp_timestamp, TIMESTAMP_MIN, TIMESTAMP_MAX]
  split_ifs <;> omega

theorem clamp_timestamp_mono {a b : Int} (h : a ≤ b) :
    clamp_timestamp a ≤ clamp_timestamp b := by
  simp only [clamp_timestamp, TIMESTAMP_MIN, TIMESTAMP_MAX]
  split_ifs <;> omega

theorem wrap64_eq_self {n : Int} (h1 : I64_MIN ≤ n) (h2 : n ≤ I64_MAX) :
    wrap64 n = n := by
  simp only [wrap64, I64_MIN, I64_MAX] at *
  omega

/-- C1 counterexample: the input domain `[31535999999, 31536000000]` straddles
the seconds/milliseconds threshold of `int64_to_timestamp`, so the rule
declares the inverted bound `[31535999999000000, 31536000000000]`; for the
in-domain input `31535999999` the evaluator produces `31535999999000000`,
which exceeds the declared max. -/
theorem c1_counterexample :
    (31535999999 : Int) ≤ 31535999999 ∧ (31535999999 : Int) ≤ 31536000000 ∧
    to_timestamp_int64_domain ⟨31535999999, 31536000000⟩ =
      .Domain ⟨31535999999000000, 31536000000000⟩ ∧
    ¬ eval_number_to_timestamp_row 31535999999 ≤ (31536000000000 : Int) := by
  refine ⟨le_refl _, by norm_num, ?_, ?_⟩
  · rfl
  · decide

set_option maxHeartbeats 1600000 in
theorem int64_to_timestamp_mono_region {x y : Int} (hxy : x ≤ y)
    (hreg : (-31536000000 < x ∧ y < 31536000000) ∨
            (31536000000 ≤ x ∧ y < 31536000000000) ∨
            (-31536000000000 < x ∧ y ≤ -31536000000) ∨
            31536000000000 ≤ x ∨ y ≤ -31536000000000) :
    int64_to_timestamp x ≤ int64_to_timestamp y := by
  unfold int64_to_timestamp clamp_timestamp
  simp only [MICROS_PER_SEC, MICROS_PER_MILLI, TIMESTAMP_MIN, TIMESTAMP_MAX]
  rcases hreg with ⟨h1, h2⟩ | ⟨h1, h2⟩ | ⟨h1, h2⟩ | h | h <;>
    split_ifs <;> omega

/-- C1 (amended): for `to_timestamp` on Int64, the domain rule declares
`[int64_to_timestamp a, int64_to_timestamp b]` for an input domain `[a, b]`,
and this bound is sound for every in-domain input provided `[a, b]` does not
straddle a threshold of the seconds/milliseconds magnitude heuristic, i.e.
`[a, b]` lies within one of the regions `(-31536000000, 31536000000)`,
`[31536000000, 31536000000000)`, `(-31536000000000, -31536000000]`,
`[31536000000000, ∞)` or `(-∞, -31536000000000]`, on each of which
`int64_to_timestamp` is monotone. -/
theorem c1_to_timestamp_int64_domain_sound (a b v : Int)
    (hregion : (-31536000000 < a ∧ b < 31536000000) ∨
               (31536000000 ≤ a ∧ b < 31536000000000) ∨
               (-31536000000000 < a ∧ b ≤ -31536000000) ∨
               31536000000000 ≤ a ∨ b ≤ -31536000000000)
    (hav : a ≤ v) (hvb : v ≤ b) :
    to_timestamp_int64_domain ⟨a, b⟩ =
      .Domain ⟨int64_to_timestamp a, int64_to_timestamp b⟩ ∧
    int64_to_timestamp a ≤ int64_to_timestamp v ∧
    int64_to_timestamp v ≤ int64_to_timestamp b :=
  ⟨rfl, int64_to_timestamp_mono_region hav (by omega),
    int64_to_timestamp_mono_region hvb (by omega)⟩

/-- C1 witness: the amended soundness theorem at the concrete domain
`[100, 200]` and input `150` (all inside the seconds region). -/
theorem c1_witness :
    to_timestamp_int64_domain ⟨100, 200⟩ =
      .Domain ⟨int64_to_timestamp 100, int64_to_timestamp 200⟩ ∧
    int64_to_timestamp 100 ≤ int64_to_timestamp 150 ∧
    int64_to_timestamp 150 ≤ int64_to_timestamp 200 :=
  c1_to_timestamp_int64_domain_sound 100 200 150 (Or.inl (by decide))
    (by decide) (by decide)

/-- C3: saturation — for every Timestamp `t` in range and every Int64 `delta`,
the `add_seconds` evaluator and the timestamp `plus`/`minus` operator
evaluators return a value inside `[TIMESTAMP_MIN, TIMESTAMP_MAX]` (every
evaluator ends in the saturating clamp, so no overflow escapes the range). -/
theorem c3_add_seconds_saturates (t delta : Int)
    (_ht : TIMESTAMP_MIN ≤ t ∧ t ≤ TIMESTAMP_MAX) :
    (TIMESTAMP_MIN ≤ add_seconds_eval t delta ∧
      add_seconds_eval t delta ≤ TIMESTAMP_MAX) ∧
    (TIMESTAMP_MIN ≤ plus_timestamp_eval t delta ∧
      plus_timestamp_eval t delta ≤ TIMESTAMP_MAX) ∧
    (TIMESTAMP_MIN ≤ minus_timestamp_eval t delta ∧
      minus_timestamp_eval t delta ≤ TIMESTAMP_MAX) :=
  ⟨clamp_timestamp_mem _, clamp_timestamp_mem _, clamp_timestamp_mem _⟩

/-- C3 witness: saturation at `t = 0` and the largest 64-bit delta. -/
theorem c3_witness :
    (TIMESTAMP_MIN ≤ add_seconds_eval 0 9223372036854775807 ∧
      add_seconds_eval 0 9223372036854775807 ≤ TIMESTAMP_MAX) ∧
    (TIMESTAMP_MIN ≤ plus_timestamp_eval 0 9223372036854775807 ∧
      plus_timestamp_eval 0 9223372036854775807 ≤ TIMESTAMP_MAX) ∧
    (TIMESTAMP_MIN ≤ minus_timestamp_eval 0 9223372036854775807 ∧
      minus_timestamp_eval 0 9223372036854775807 ≤ TIMESTAMP_MAX) :=
  c3_add_seconds_saturates 0 9223372036854775807 (by decide)

/-- C4 counterexample: (1) the domain rule generated for `add_days` on a
Timestamp (and every other fixed-length-unit add/subtract function) returns
`MayThrow` unconditionally — at `lhs = rhs = [0, 0]` it does not return the
claimed `Bounded([0 + 0, 0 + 0])`; (2) the timestamp `minus` operator's rule
at `lhs = rhs = [0, 10]` returns `Bounded([0, 0])`, not the claimed
subtrahend-swapped `Bounded([0 - 10, 10 - 0]) = Bounded([-10, 10])`. -/
theorem c4_counterexample :
    (add_fixed_unit_timestamp_domain ⟨0, 0⟩ ⟨0, 0⟩ = .MayThrow ∧
      add_fixed_unit_timestamp_domain ⟨0, 0⟩ ⟨0, 0⟩ ≠ .Domain ⟨0, 0⟩) ∧
    (minus_timestamp_domain ⟨0, 10⟩ ⟨0, 10⟩ = .Domain ⟨0, 0⟩ ∧
      minus_timestamp_domain ⟨0, 10⟩ ⟨0, 10⟩ ≠ .Domain ⟨-10, 10⟩) := by
  refine ⟨⟨rfl, by decide⟩, ?_, by decide⟩
  · show FunctionDomain.Domain ⟨clamp_timestamp (wrap64 (0 - 0)),
      clamp_timestamp (wrap64 (10 - 10))⟩ = .Domain ⟨0, 0⟩
    norm_num
    decide

/-- C4 (amended): the fixed-length-unit `add_*`/`subtract_*` functions'
domain rules return `MayFail` unconditionally. The timestamp `plus` operator's
rule returns `Bounded([lhs.min + rhs.min, lhs.max + rhs.max])` with each bound
clamped to the timestamp range (never collapsing to `MayFail`), and the
timestamp `minus` operator's rule returns
`Bounded([lhs.min - rhs.min, lhs.max - rhs.max])` clamped — the subtrahend's
endpoints are not swapped. The endpoint arithmetic is wrapping 64-bit
addition, not saturating; when no 64-bit overflow occurs (the stated
hypotheses), the `plus` rule's declared bound is sound for the evaluator. -/
theorem c4_arith_domain_rules (lhs rhs : SimpleDomain) (a b dmin dmax : Int)
    (ha : lhs.min ≤ a ∧ a ≤ lhs.max) (hb : rhs.min ≤ b ∧ b ≤ rhs.max)
    (hplo : I64_MIN ≤ lhs.min + rhs.min) (hphi : lhs.max + rhs.max ≤ I64_MAX)
    (hmlo : I64_MIN ≤ lhs.min - rhs.min) (hmhi : lhs.max - rhs.max ≤ I64_MAX)
    (hmlo2 : I64_MIN ≤ lhs.max - rhs.max) (hmhi2 : lhs.min - rhs.min ≤ I64_MAX)
    (hd : plus_timestamp_domain lhs rhs = .Domain ⟨dmin, dmax⟩) :
    add_fixed_unit_timestamp_domain lhs rhs = .MayThrow ∧
    plus_timestamp_domain lhs rhs =
      .Domain ⟨clamp_timestamp (lhs.min + rhs.min),
               clamp_timestamp (lhs.max + rhs.max)⟩ ∧
    minus_timestamp_domain lhs rhs =
      .Domain ⟨clamp_timestamp (lhs.min - rhs.min),
               clamp_timestamp (lhs.max - rhs.max)⟩ ∧
    dmin ≤ plus_timestamp_eval a b ∧ plus_timestamp_eval a b ≤ dmax := by
  have hplo2 : I64_MIN ≤ lhs.max + rhs.max := by omega
  have hphi2 : lhs.min + rhs.min ≤ I64_MAX := by omega
  have hw1 : wrap64 (lhs.min + rhs.min) = lhs.min + rhs.min := wrap64_eq_self hplo hphi2
  have hw2 : wrap64 (lhs.max + rhs.max) = lhs.max + rhs.max := wrap64_eq_self hplo2 hphi
  have hw3 : wrap64 (lhs.min - rhs.min) = lhs.min - rhs.min := wrap64_eq_self hmlo hmhi2
  have hw4 : wrap64 (lhs.max - rhs.max) = lhs.max - rhs.max := wrap64_eq_self hmlo2 hmhi
  have hwab : wrap64 (a + b) = a + b := wrap64_eq_self (by omega) (by omega)
  simp only [plus_timestamp_domain, hw1, hw2, FunctionDomain.Domain.injEq,
    SimpleDomain.mk.injEq] at hd
  refine ⟨rfl, ?_, ?_, ?_, ?_⟩
  · simp only [plus_timestamp_domain, hw1, hw2]
  · simp only [minus_timestamp_domain, hw3, hw4]
  · rw [← hd.1]
    simp only [plus_timestamp_eval, hwab]
    exact clamp_timestamp_mono (by omega)
  · rw [← hd.2]
    simp only [plus_timestamp_eval, hwab]
    exact clamp_timestamp_mono (by omega)

/-- C4 witness: the amended rule characterization at
`lhs = [0, 10]`, `rhs = [5, 6]`, inputs `a = 3`, `b = 5`. -/
theorem c4_witness :
    add_fixed_unit_timestamp_domain ⟨0, 10⟩ ⟨5, 6⟩ = .MayThrow ∧
    plus_timestamp_domain ⟨0, 10⟩ ⟨5, 6⟩ =
      .Domain ⟨clamp_timestamp (0 + 5), clamp_timestamp (10 + 6)⟩ ∧
    minus_timestamp_domain ⟨0, 10⟩ ⟨5, 6⟩ =
      .Domain ⟨clamp_timestamp (0 - 5), clamp_timestamp (10 - 6)⟩ ∧
    (5 : Int) ≤ plus_timestamp_eval 3 5 ∧ plus_timestamp_eval 3 5 ≤ 16 :=
  c4_arith_domain_rules ⟨0, 10⟩ ⟨5, 6⟩ 3 5 5 16 (by decide) (by decide)
    (by decide) (by decide) (by decide) (by decide) (by decide) (by decide)
    (by decide)

/-- C2 (code bug): in the lenient branch of `eval_string_to_timestamp`, when a
timezone was detected, resolution yields `MappedLocalTime::None`,
`enable_dst_hour_fix` is set, and `naive_dt.checked_add_signed(3600s)`
overflows, the `if let Some(res2)` at datetime.rs line 244 has no `else` arm:
the row's output slot is never written and no error is recorded. In a 3-row
batch whose middle row hits that branch, the output column ends up with only
2 values and an empty error sink, violating the claimed one-value-per-row
invariant that every other branch (and the vectorization adapter) maintains. -/
theorem c2_overflow_branch_writes_nothing :
    evalStringToTimestampRow false true (Except.ok 0) (.withTz .NoneM none "naive") 1
      = ([], []) ∧
    evalStringToTimestampBatch false true
      [((Except.ok 11 : Except String Int), .noTz (Except.ok 11)),
       ((Except.ok 0 : Except String Int), .withTz .NoneM none "naive"),
       ((Except.ok 22 : Except String Int), .noTz (Except.ok 22))] 0
      = ([11, 22], []) ∧
    (evalStringToTimestampBatch false true
      [((Except.ok 11 : Except String Int), .noTz (Except.ok 11)),
       ((Except.ok 0 : Except String Int), .withTz .NoneM none "naive"),
       ((Except.ok 22 : Except String Int), .noTz (Except.ok 22))] 0).1.length = 2 :=
  ⟨rfl, rfl, rfl⟩

/-- C5: DST fall-back policy — when the detected-timezone resolution of the
parsed naive time is `Ambiguous(t1, t2)` (with `t1` the earlier instant per
chrono's contract), the evaluator pushes `t1` when `enable_dst_hour_fix` is
true and `t2` when it is false, recording no error either way. -/
theorem c5_dst_fallback_policy (t1 t2 : Int) (sR : Except String Int)
    (plusHour : Option MappedLocalTime) (msg : String) (row : Nat) :
    evalStringToTimestampRow false true sR
      (.withTz (.Ambiguous t1 t2) plusHour msg) row = ([t1], []) ∧
    evalStringToTimestampRow false false sR
      (.withTz (.Ambiguous t1 t2) plusHour msg) row = ([t2], []) :=
  ⟨rfl, rfl⟩

/-- C6: DST spring-forward policy — when resolution yields
`MappedLocalTime::None` and `enable_dst_hour_fix` is true, the evaluator
retries with one hour added to the naive value, accepting a `Single` result or
the earlier of an `Ambiguous` pair; if the retry still resolves to nothing it
records a row-scoped error and pushes the placeholder 0, and when
`enable_dst_hour_fix` is false it records a row-scoped error and pushes 0
without retrying. -/
theorem c6_dst_gap_policy (t t1 t2 : Int) (sR : Except String Int)
    (msg : String) (row : Nat) (ph : Option MappedLocalTime) :
    evalStringToTimestampRow false true sR
      (.withTz .NoneM (some (.Single t)) msg) row = ([t], []) ∧
    evalStringToTimestampRow false true sR
      (.withTz .NoneM (some (.Ambiguous t1 t2)) msg) row = ([t1], []) ∧
    evalStringToTimestampRow false true sR
      (.withTz .NoneM (some .NoneM) msg) row
      = ([0], [(row, "cannot parse to type TIMESTAMP. Local Time Error: " ++ msg)]) ∧
    evalStringToTimestampRow false false sR
      (.withTz .NoneM ph msg) row
      = ([0], [(row, "cannot parse to type TIMESTAMP. " ++ msg)]) :=
  ⟨rfl, rfl, rfl, rfl⟩

/-- C7: `convert_timezone` writes exactly one value per row and never aborts:
an unparseable target timezone, an overflowing offset-to-micros multiply, or
an overflowing final add each record a row-scoped error and push the
placeholder 0; otherwise the pushed value is the source instant plus
`(target UTC offset - source UTC offset)` at that instant in microseconds. -/
theorem c7_convert_timezone_row_total (r : ConvertTzRow) (row : Nat) :
    (convert_timezone_row r row).1.length = 1 ∧
    (r.valid = true → r.targetTz = none →
      convert_timezone_row r row
        = ([0], [(row, "cannot parse target timezone. " ++ r.errTxt)])) ∧
    (∀ tgtOff, r.valid = true → r.targetTz = some tgtOff →
      ¬ (I64_MIN ≤ (tgtOff - r.srcOffset) * MICROS_PER_SEC ∧
         (tgtOff - r.srcOffset) * MICROS_PER_SEC ≤ I64_MAX) →
      convert_timezone_row r row = ([0], [(row, "calc time offset error")])) ∧
    (∀ tgtOff, r.valid = true → r.targetTz = some tgtOff →
      (I64_MIN ≤ (tgtOff - r.srcOffset) * MICROS_PER_SEC ∧
       (tgtOff - r.srcOffset) * MICROS_PER_SEC ≤ I64_MAX) →
      ¬ (I64_MIN ≤ r.srcTs + (tgtOff - r.srcOffset) * MICROS_PER_SEC ∧
         r.srcTs + (tgtOff - r.srcOffset) * MICROS_PER_SEC ≤ I64_MAX) →
      convert_timezone_row r row = ([0], [(row, "calc final time error")])) ∧
    (∀ tgtOff, r.valid = true → r.targetTz = some tgtOff →
      (I64_MIN ≤ (tgtOff - r.srcOffset) * MICROS_PER_SEC ∧
       (tgtOff - r.srcOffset) * MICROS_PER_SEC ≤ I64_MAX) →
      (I64_MIN ≤ r.srcTs + (tgtOff - r.srcOffset) * MICROS_PER_SEC ∧
       r.srcTs + (tgtOff - r.srcOffset) * MICROS_PER_SEC ≤ I64_MAX) →
      convert_timezone_row r row
        = ([r.srcTs + (tgtOff - r.srcOffset) * MICROS_PER_SEC], [])) := by
  refine ⟨?_, ?_, ?_, ?_, ?_⟩
  · cases hval : r.valid with
    | false => simp [convert_timezone_row, hval]
    | true =>
      cases htz : r.targetTz with
      | none => simp [convert_timezone_row, hval, htz]
      | some tgtOff =>
        by_cases hmul : I64_MIN ≤ (tgtOff - r.srcOffset) * MICROS_PER_SEC ∧
            (tgtOff - r.srcOffset) * MICROS_PER_SEC ≤ I64_MAX
        · by_cases hadd : I64_MIN ≤ r.srcTs + (tgtOff - r.srcOffset) * MICROS_PER_SEC ∧
              r.srcTs + (tgtOff - r.srcOffset) * MICROS_PER_SEC ≤ I64_MAX
          · simp [convert_timezone_row, hval, htz, checked_mul, checked_add,
              if_pos hmul, if_pos hadd]
          · simp [convert_timezone_row, hval, htz, checked_mul, checked_add,
              if_pos hmul, if_neg hadd]
        · simp [convert_timezone_row, hval, htz, checked_mul, if_neg hmul]
  · intro hv ht
    simp [convert_timezone_row, hv, ht]
  · intro tgtOff hv ht hmul
    simp only [convert_timezone_row, hv, ht, checked_mul]
    rw [if_neg hmul]
  · intro tgtOff hv ht hmul hadd
    simp [convert_timezone_row, hv, ht, checked_mul, checked_add,
      if_pos hmul, if_neg hadd]
  · intro tgtOff hv ht hmul hadd
    simp [convert_timezone_row, hv, ht, checked_mul, checked_add,
      if_pos hmul, if_pos hadd]

/-- C7 witness: the success case at a concrete row — source instant
1000000 micros, source offset -18000 s, target offset 3600 s. -/
theorem c7_witness :
    convert_timezone_row ⟨true, 1000000, -18000, some 3600, ""⟩ 0
      = ([1000000 + (3600 - (-18000)) * MICROS_PER_SEC], []) :=
  (c7_convert_timezone_row_total ⟨true, 1000000, -18000, some 3600, ""⟩ 0).2.2.2.2
    3600 rfl rfl (by decide) (by decide)

/-- C8: diff antisymmetry — for all Dates `a` and `b` in the representable
date range, `diff_days(a, b)` equals the negation of `diff_days(b, a)`. -/
theorem c8_diff_days_antisymm (a b : Int)
    (_ha : DATE_MIN ≤ a ∧ a ≤ DATE_MAX) (_hb : DATE_MIN ≤ b ∧ b ≤ DATE_MAX) :
    diff_days_date_eval a b = - diff_days_date_eval b a := by
  simp only [diff_days_date_eval, EvalDaysImpl.eval_date_diff]
  ring

/-- C8 witness: antisymmetry at the concrete Dates 5 and 7. -/
theorem c8_witness : diff_days_date_eval 5 7 = - diff_days_date_eval 7 5 :=
  c8_diff_days_antisymm 5 7 (by decide) (by decide)

/-- C9: empty-format shortcut — for every input string and every behaviour of
the non-empty parsing pipeline, the two-argument `to_timestamp` and
`try_to_timestamp` with an empty format return NULL for the row, record no
error, and never consult the parsing pipeline
(`string_to_format_timestamp` returns the need-null marker first). -/
theorem c9_empty_format_shortcut (s : String) (row : Nat)
    (rest : String → String → Except String (Int × Bool)) :
    string_to_format_timestamp s "" rest = .ok (0, true) ∧
    to_timestamp_fmt_row s "" rest row = ([.nullv], []) ∧
    try_to_timestamp_fmt_row s "" rest row = ([.nullv], []) :=
  ⟨rfl, rfl, rfl⟩

/-- C10: `refresh_handler` returns a `RefreshResponse` — carrying the new
session and refresh tokens and a TTL of `SESSION_TOKEN_TTL` in seconds — only
when the request credential is `Credential::DatabendToken`; for every other
credential variant it panics via `unreachable!` instead of returning an error
response. -/
theorem c10_refresh_handler_credential (cred : Credential)
    (m : String → Except String TokenPair) :
    (∀ resp, refresh_handler cred m = .ok resp →
      (∃ token, cred = .DatabendToken token) ∧
      resp.session_token_ttl_in_secs = SESSION_TOKEN_TTL_SECS ∧
      resp.session_token.isSome = true ∧ resp.refresh_token.isSome = true) ∧
    (cred = .Other → refresh_handler cred m
      = .panicked "/v1/session/refresh should be authed by databend refresh token") := by
  constructor
  · intro resp hok
    cases cred with
    | DatabendToken token =>
      refine ⟨⟨token, rfl⟩, ?_⟩
      simp only [refresh_handler] at hok
      cases hm : m token with
      | ok pair => rw [hm] at hok; cases hok; exact ⟨rfl, rfl, rfl⟩
      | error e => rw [hm] at hok; cases hok
    | Other => cases hok
  · intro h
    cases h
    rfl

/-- C10 witness: a `DatabendToken` credential with a succeeding token manager
yields a response with the configured TTL and both tokens present. -/
theorem c10_witness :
    (∃ token, Credential.DatabendToken "tok" = Credential.DatabendToken token) ∧
    (RefreshResponse.mk (some "s") (some "r")
      SESSION_TOKEN_TTL_SECS).session_token_ttl_in_secs = SESSION_TOKEN_TTL_SECS ∧
    (RefreshResponse.mk (some "s") (some "r")
      SESSION_TOKEN_TTL_SECS).session_token.isSome = true ∧
    (RefreshResponse.mk (some "s") (some "r")
      SESSION_TOKEN_TTL_SECS).refresh_token.isSome = true :=
  (c10_refresh_handler_credential (.DatabendToken "tok")
    (fun _ => .ok ⟨"s", "r"⟩)).1 ⟨some "s", some "r", SESSION_TOKEN_TTL_SECS⟩ rfl

end Databend
